import Mathlib

/-!
Verification of the connection and call-dispatch engine of the mirai
adapter (nonebot-adapter-mirai).  The definitions below are a shallow
embedding of `src/nonebot/adapters/mirai/adapter.py` (the response
validator `validate_response`, the receive loop `_loop`, the reconnect
supervisor `ws`, and the WS call path `_call_ws`), of the status-code
table in `exception.py`, and of the event-class registry built in
`event.py`.  Decoded JSON frames are modelled by `JValue`; the relevant
parts of Python semantics (`dict.get`, the `in` operator, `dict.pop`,
truthiness, `bool` being an `int` subtype) are modelled explicitly by the
`py*` helpers.
-/

/-- A decoded JSON value, as produced by `json.loads`.  Objects are
association lists with string keys (Python dicts; keys are unique in any
value produced by the JSON decoder). -/
inductive JValue where
  | jnull
  | jbool (b : Bool)
  | jint (n : Int)
  | jstr (s : String)
  | jarr (xs : List JValue)
  | jobj (fields : List (String × JValue))
deriving Repr

/-- First binding of a key in an object, i.e. Python dict lookup (keys
of a dict produced by the JSON decoder are unique). -/
def lookupF : List (String × JValue) → String → Option JValue
  | [], _ => none
  | p :: rest, k => if p.1 == k then some p.2 else lookupF rest k

/-- Whether an object has a key (`k in d` for a dict `d`). -/
def hasKey : List (String × JValue) → String → Bool
  | [], _ => false
  | p :: rest, k => p.1 == k || hasKey rest k

/-- Remove the binding of a key (`d.pop(k)` / `del d[k]` on a dict). -/
def delKey : List (String × JValue) → String → List (String × JValue)
  | [], _ => []
  | p :: rest, k => if p.1 == k then rest else p :: delKey rest k

/-- Substring test, modelling Python `needle in haystack` on strings. -/
def strContains (hay needle : String) : Bool :=
  (List.range (hay.data.length + 1)).any
    (fun i => needle.data.isPrefixOf (hay.data.drop i))

/-- Python exceptions that the embedded code can raise.  `adapter` wraps
the adapter error taxonomy of `exception.py`; the others are the builtin
exceptions the adapter code can hit (`AttributeError` from `.get` on a
non-dict, `TypeError` from `in`/indexing on unsupported types,
`KeyError` from `dict.pop`, `asyncio.InvalidStateError` from resolving a
completed future, `RuntimeError` from `_call_ws` preconditions,
`asyncio.CancelledError` from task cancellation). -/
inductive ErrKind where
  | invalidVerifyKey
  | accountNotFound
  | invalidSession
  | unVerifiedSession
  | unknownTarget
  | fileNotFound
  | permissionDenied
  | accountMuted
  | tooLongMessage
  | invalidOperation
  | remoteException
deriving DecidableEq, Repr

/-- The class docstring used as the exception message
(`exc_cls.__doc__`, exception.py). -/
def docOf : ErrKind → String
  | .invalidVerifyKey => "无效的 verifyKey 或其配置."
  | .accountNotFound => "未能使用所配置的账号激活 session key, 请检查配置."
  | .invalidSession => "无效的 sessionKey, 请重新获取."
  | .unVerifiedSession => "尚未验证/绑定的 session."
  | .unknownTarget => "对象位置未知, 不存在或不可及."
  | .fileNotFound => "文件不存在."
  | .permissionDenied => "权限不足."
  | .accountMuted => "账号在对象所在聊天区域被封禁."
  | .tooLongMessage => "消息过长, 尝试分段发送或报告问题."
  | .invalidOperation => "操作参数不合法, 请报告问题."
  | .remoteException => "网络异常: 无头客户端处发生错误, 你应该检查其输出的错误日志."

/-- `code_exceptions_mapping` of exception.py lines 101-113: the fixed
table from status code to exception class. -/
def code_exceptions_mapping (c : Int) : Option ErrKind :=
  if c = 1 then some .invalidVerifyKey
  else if c = 2 then some .accountNotFound
  else if c = 3 then some .invalidSession
  else if c = 4 then some .unVerifiedSession
  else if c = 5 then some .unknownTarget
  else if c = 6 then some .fileNotFound
  else if c = 10 then some .permissionDenied
  else if c = 20 then some .accountMuted
  else if c = 30 then some .tooLongMessage
  else if c = 400 then some .invalidOperation
  else if c = 500 then some .remoteException
  else none

/-- An adapter error instance: the class, the message
(`exc_cls.__doc__ or exc_cls.__name__`), the original status code and
the original content string `str(data)`. -/
structure MiraiErr where
  kind : ErrKind
  msg : String
  code : Int
  content : String
deriving DecidableEq, Repr

inductive PyExc where
  | adapter (e : MiraiErr)
  | attributeError
  | typeError
  | keyError (k : String)
  | invalidState
  | runtimeError (m : String)
  | cancelledError
deriving DecidableEq, Repr

mutual

/-- Rendering of a value as a string, modelling `str(data)` in
`validate_response`.  Only the fact that the content is a rendering of
the whole original input matters to any property below, so Python
quoting and brace punctuation are not reproduced. -/
def pyStr : JValue → String
  | .jnull => "None"
  | .jbool b => if b then "True" else "False"
  | .jint n => toString n
  | .jstr s => s
  | .jarr xs => "[" ++ pyStrList xs ++ "]"
  | .jobj fs => "dict(" ++ pyStrFields fs ++ ")"

def pyStrList : List JValue → String
  | [] => ""
  | [x] => pyStr x
  | x :: xs => pyStr x ++ ", " ++ pyStrList xs

def pyStrFields : List (String × JValue) → String
  | [] => ""
  | [p] => p.1 ++ ": " ++ pyStr p.2
  | p :: ps => p.1 ++ ": " ++ pyStr p.2 ++ ", " ++ pyStrFields ps

end

/-- Build the exception for a non-success code, adapter.py lines 92-97:
the mapped class when the code is in the table, otherwise the generic
`RemoteException`; either way it carries the original code and
`str(data)`. -/
def mkExc (code : Int) (content : String) : MiraiErr :=
  match code_exceptions_mapping code with
  | some k => { kind := k, msg := docOf k, code := code, content := content }
  | none =>
      { kind := .remoteException, msg := docOf .remoteException,
        code := code, content := content }

/-- `int_code = data.get("code") if isinstance(data, dict) else data`,
followed by the `isinstance(int_code, int)` test (adapter.py line 89).
Python `bool` is an `int` subtype, so boolean codes pass the isinstance
test with their numeric value. -/
def intCodeOf (data : JValue) : Option Int :=
  match data with
  | .jobj fs =>
      match lookupF fs "code" with
      | some (.jint n) => some n
      | some (.jbool b) => some (if b then 1 else 0)
      | _ => none
  | .jint n => some n
  | .jbool b => some (if b then 1 else 0)
  | _ => none

/-- Result of `validate_response`: a returned value, the error returned
as a value (`raising=False`), or a raised exception. -/
inductive VRes where
  | ret (v : JValue)
  | retExc (e : MiraiErr)
  | raised (e : PyExc)
deriving Repr

/-- The success path `return data.get("data", data)` (adapter.py line
91): on a dict it returns the `data` field or the whole dict; on any
other value `.get` does not exist and `AttributeError` is raised. -/
def successValue (data : JValue) : VRes :=
  match data with
  | .jobj fs => .ret ((lookupF fs "data").getD (.jobj fs))
  | _ => .raised .attributeError

/-- `Adapter.validate_response` (adapter.py lines 87-100). -/
def validate_response (data : JValue) (raising : Bool) : VRes :=
  match intCodeOf data with
  | none => successValue data
  | some n =>
      if n = 200 ∨ n = 0 then successValue data
      else
        let exc := mkExc n (pyStr data)
        if raising then .raised (.adapter exc) else .retExc exc

/-! ## Python operations used by the receive loop -/

/-- Python `needle in v` for a string `needle`: key membership on a
dict, element equality on a list (only an equal string matches),
substring test on a string, and `TypeError` on the remaining types. -/
def pyContains (needle : String) (v : JValue) : Except PyExc Bool :=
  match v with
  | .jobj fs => .ok (hasKey fs needle)
  | .jarr xs => .ok (xs.any (fun x => match x with | .jstr t => t == needle | _ => false))
  | .jstr s => .ok (strContains s needle)
  | _ => .error .typeError

/-- Python `v.get(k, d)`: defined on dicts, `AttributeError` on every
other value. -/
def pyGetD (v : JValue) (k : String) (d : JValue) : Except PyExc JValue :=
  match v with
  | .jobj fs => .ok ((lookupF fs k).getD d)
  | _ => .error .attributeError

/-- Python `v[k]` for a string key `k`: dict indexing (`KeyError` when
absent), `TypeError` on lists and strings (string keys are not
integers) and on the remaining types. -/
def pyIndex (v : JValue) (k : String) : Except PyExc JValue :=
  match v with
  | .jobj fs =>
      match lookupF fs k with
      | some x => .ok x
      | none => .error (.keyError k)
  | _ => .error .typeError

/-- Python `v.pop(k)`: defined on dicts (`KeyError` when the key is
absent), `AttributeError` on every other value.  Returns the popped
value and the remaining fields. -/
def pyPop (v : JValue) (k : String) : Except PyExc (JValue × List (String × JValue)) :=
  match v with
  | .jobj fs =>
      match lookupF fs k with
      | some x => .ok (x, delKey fs k)
      | none => .error (.keyError k)
  | _ => .error .attributeError

/-- Python truthiness (`not value`), as used on
`self.session_keys.get(account)`. -/
def pyTruthy : JValue → Bool
  | .jnull => false
  | .jbool b => b
  | .jint n => n != 0
  | .jstr s => !s.isEmpty
  | .jarr xs => !xs.isEmpty
  | .jobj fs => !fs.isEmpty

/-! ## The per-account connection state

`AccountConnection` of the spec: the slice of the adapter state keyed by
one account (`response_waiters[account]`, `session_keys.get(account)`,
`str(account) in self.bots`, `account in self.wss`).  `nextId` models
the identity source for futures: CPython object identities of
simultaneously live objects are distinct, so fresh futures are modelled
by a monotone counter and `str(hash(future))` by an injective rendering
of that counter (`tokenStr`; only its injectivity is relevant). -/

/-- The state of one `asyncio.Future` sitting in the
`WeakValueDictionary` `response_waiters[account]`.  An entry whose
future was garbage collected (the awaiting caller abandoned it) is
simply absent from the table. -/
inductive FutureState where
  | pending
  | doneResult (v : JValue)
  | doneError (e : MiraiErr)
  | cancelled
deriving Repr

structure Conn where
  waiters : List (String × FutureState)
  sessionKey : Option JValue
  botConnected : Bool
  wsHandle : Bool
  nextId : Nat
deriving Repr

/-- A decoded event object: `type_validate_python(EVENT_CLASSES[t], body)`
for a registered tag, or the fallback
`type_validate_python(Event, body)` with `__event_type__` set to the raw
tag value (adapter.py lines 183-192). -/
inductive MEvent where
  | typed (tag : String) (payload : List (String × JValue))
  | generic (tag : JValue) (payload : List (String × JValue))
deriving Repr

/-- The recorded event type (`__event_type__`) of a decoded event. -/
def recordedType : MEvent → JValue
  | .typed t _ => .jstr t
  | .generic t _ => t

/-- A unit of work scheduled on the event loop:
`asyncio.create_task(bot.handle_event(event))`. -/
inductive Scheduled where
  | handleEvent (e : MEvent)
deriving Repr

/-- The decode of a registered event class,
`type_validate_python(EVENT_CLASSES[tag], body)`: pydantic validation is
an external collaborator, so the loop model is parameterised by it; a
validation failure is an exception escaping the loop. -/
def DecodeFn : Type := String → List (String × JValue) → Except PyExc MEvent

/-- The registry of event type tags built by `@register_event_class` in
event.py (the keys of `EVENT_CLASSES`).  `NudgeEvent` is declared there
but not registered. -/
def EVENT_CLASSES : List String :=
  ["FriendMessage", "GroupMessage", "TempMessage", "StrangerMessage",
   "OtherClientMessage", "ActiveFriendMessage", "ActiveGroupMessage",
   "ActiveTempMessage", "ActiveStrangerMessage", "FriendSyncMessage",
   "GroupSyncMessage", "TempSyncMessage", "StrangerSyncMessage",
   "BotOnlineEvent", "BotOfflineEventActive", "BotOfflineEventForce",
   "BotOfflineEventDropped", "BotReloginEvent",
   "BotGroupPermissionChangeEvent", "BotMuteEvent", "BotUnmuteEvent",
   "BotJoinGroupEvent", "BotLeaveEventActive", "BotLeaveEventKick",
   "BotLeaveEventDisband", "FriendAddEvent", "FriendDeleteEvent",
   "FriendInputStatusChangedEvent", "FriendNickChangedEvent",
   "FriendRecallEvent", "GroupRecallEvent", "GroupNameChangeEvent",
   "GroupEntranceAnnouncementChangeEvent", "GroupMuteAllEvent",
   "GroupAllowAnonymousChatEvent", "GroupAllowConfessTalkEvent",
   "GroupAllowMemberInviteEvent", "MemberJoinEvent",
   "MemberLeaveEventKick", "MemberLeaveEventQuit",
   "MemberCardChangeEvent", "MemberSpecialTitleChangeEvent",
   "MemberPermissionChangeEvent", "MemberMuteEvent", "MemberUnmuteEvent",
   "MemberHonorChangeEvent", "FriendRequestEvent",
   "MemberJoinRequestEvent", "BotInvitedJoinGroupRequestEvent",
   "OtherClientOnlineEvent", "OtherClientOfflineEvent"]

/-- `event_type not in EVENT_CLASSES` (adapter.py line 184): key probe
on a dict with string keys.  A hashable non-string tag is simply not a
member; an unhashable tag (list/dict) raises `TypeError`. -/
def eventClassMember (tv : JValue) : Except PyExc Bool :=
  match tv with
  | .jstr s => .ok (EVENT_CLASSES.contains s)
  | .jarr _ => .error .typeError
  | .jobj _ => .error .typeError
  | _ => .ok false

/-- Lookup of a token in the pending table. -/
def findTok : List (String × FutureState) → String → Option (String × FutureState)
  | [], _ => none
  | p :: rest, s => if p.1 == s then some p else findTok rest s

/-- `del waiters[tok]` (the unique binding of an existing key is
removed). -/
def delTok : List (String × FutureState) → String → List (String × FutureState)
  | [], _ => []
  | p :: rest, s => if p.1 == s then rest else p :: delTok rest s

/-- `sync_id in self.response_waiters[account]` followed by the lookup:
the table keys are strings, so only a string `sync_id` can match; an
unhashable `sync_id` (list/dict) raises `TypeError`. -/
def sidFind (sid : JValue) (ws : List (String × FutureState)) :
    Except PyExc (Option (String × FutureState)) :=
  match sid with
  | .jarr _ => .error .typeError
  | .jobj _ => .error .typeError
  | .jstr s => .ok (findTok ws s)
  | _ => .ok none

/-- Replace the state of the entry with the given key (Python dict
update at an existing key). -/
def setW : List (String × FutureState) → String → FutureState →
    List (String × FutureState)
  | [], _, _ => []
  | p :: rest, k, st => if p.1 == k then (k, st) :: rest else p :: setW rest k st

/-- `future.set_result(v)` / `future.set_exception(e)`: resolving a
pending future succeeds; `asyncio` raises `InvalidStateError` when the
future is already done or cancelled. -/
def resolveEntry (c : Conn) (tok : String) (st : FutureState)
    (res : FutureState) : Except PyExc (Conn × List Scheduled) :=
  match st with
  | .pending => .ok ({ c with waiters := setW c.waiters tok res }, [])
  | _ => .error .invalidState

/-- `if "code" in data: self.validate_response(data)` (adapter.py lines
158-159): the top-level status code is validated in raising mode and
the returned value is discarded; a raised exception escapes the loop. -/
def topValidate (hasCode : Bool) (data : JValue) : Option PyExc :=
  if hasCode then
    match validate_response data true with
    | .raised e => some e
    | _ => none
  else none

/-- The tail of one loop iteration once the payload `body` has been
validated successfully (adapter.py lines 168-194): session-credential
frames update the stored credential; a matching correlation token is
resolved; a payload without a type tag is dropped; otherwise the event
is decoded (registered tag: external validation `dec`, which may raise;
unregistered tag: the total generic fallback) and scheduled. -/
def afterBody (dec : DecodeFn) (c : Conn) (syncId : JValue) (body : JValue) :
    Except PyExc (Conn × List Scheduled) :=
  match pyContains "session" body with
  | .error e => .error e
  | .ok true =>
      match pyIndex body "session" with
      | .error e => .error e
      | .ok v => .ok ({ c with sessionKey := some v }, [])
  | .ok false =>
      match sidFind syncId c.waiters with
      | .error e => .error e
      | .ok (some (tok, st)) => resolveEntry c tok st (.doneResult body)
      | .ok none =>
          match pyContains "type" body with
          | .error e => .error e
          | .ok false => .ok (c, [])
          | .ok true =>
              match pyPop body "type" with
              | .error e => .error e
              | .ok (tv, rest) =>
                  match eventClassMember tv with
                  | .error e => .error e
                  | .ok true =>
                      match tv with
                      | .jstr tag =>
                          match dec tag rest with
                          | .ok ev => .ok (c, [.handleEvent ev])
                          | .error e => .error e
                      | _ => .ok (c, [])
                  | .ok false => .ok (c, [.handleEvent (.generic tv rest)])

/-- One iteration of `Adapter._loop` (adapter.py lines 155-194) on one
decoded frame.  `.error e` means the exception `e` escapes `_loop` and
the session ends (the supervisor reconnects); the state is unchanged in
that case because every raising operation of the body precedes the
single mutation of its branch. -/
def loopStep (dec : DecodeFn) (c : Conn) (data : JValue) :
    Except PyExc (Conn × List Scheduled) :=
  match pyContains "code" data with
  | .error e => .error e
  | .ok hasCode =>
      match topValidate hasCode data with
      | some e => .error e
      | none =>
          match pyGetD data "syncId" (.jstr "#") with
          | .error e => .error e
          | .ok syncId =>
              match pyGetD data "data" .jnull with
              | .error e => .error e
              | .ok dataField =>
                  match validate_response dataField false with
                  | .raised e => .error e
                  | .retExc exc =>
                      match sidFind syncId c.waiters with
                      | .error e => .error e
                      | .ok none => .ok (c, [])
                      | .ok (some (tok, st)) => resolveEntry c tok st (.doneError exc)
                  | .ret body => afterBody dec c syncId body

/-- A decode oracle that accepts every body, used to instantiate
`DecodeFn` at inputs whose theorems never reach the typed decode. -/
def decAny : DecodeFn := fun tag body => .ok (.typed tag body)

/-- `type_validate_python(EVENT_CLASSES["FriendMessage"], body)`,
modelled from event.py: validation of every message event first runs
the `mode="before"` validator `generate_message`, whose first statement
evaluates `values["messageChain"]` (event.py line 65), so a body
without that key raises `KeyError` before any field is validated.  The
theorems below evaluate this oracle only at bodies lacking the key; the
branch for bodies that do carry it stands for the further validation
those theorems never reach. -/
def decodeFriendMessage : DecodeFn := fun tag body =>
  match lookupF body "messageChain" with
  | none => .error (.keyError "messageChain")
  | some _ => .ok (.typed tag body)

/-! ## The WS call path (`Adapter._call_ws`, adapter.py lines 211-246) -/

/-- `str(hash(future))`: CPython object hashes of simultaneously live
objects are derived bijectively from their distinct identities, so the
token of a freshly created future differs from the token of every other
live future.  The identity source is modelled by the allocation counter
`Conn.nextId` and the string rendering by an injective encoding of that
counter; only its injectivity on live ids is used below. -/
def tokenStr (i : Nat) : String := String.mk (List.replicate i 'f')

/-- `{"fetch": "get", "post": "update"}.get(method) or method`
(adapter.py lines 232-236).  The looked-up values are nonempty strings,
hence truthy, so Python `or` keeps them; a miss yields `None`, which is
falsy, so `or` falls through to the raw method. -/
def subCommandFor (method : String) : String :=
  let looked : Option String :=
    if method == "fetch" then some "get"
    else if method == "post" then some "update"
    else none
  match looked with
  | some s => if s.isEmpty then method else s
  | none => method

/-- The outbound frame dict built by `_call_ws` (adapter.py lines
231-241), in insertion order. -/
def wsFrame (action method : String) (params : Option JValue)
    (echo : String) (sessionKey : JValue) (session : Bool) :
    List (String × JValue) :=
  [("subCommand", .jstr (subCommandFor method)),
   ("syncId", .jstr echo),
   ("command", .jstr action),
   ("content", match params with
               | some v => if pyTruthy v then v else .jobj []
               | none => .jobj [])] ++
  (if session then [("sessionKey", sessionKey)] else [])

inductive StartResult where
  | raised (e : PyExc)
  | httpFallback
  | sent (c : Conn) (token : String) (frame : List (String × JValue))
deriving Repr

/-- The synchronous prefix of `_call_ws` (adapter.py lines 220-243):
precondition checks, the multipart deferral to `_call_http`, future
creation, registration of the pending entry under the fresh token, and
construction of the outbound frame. -/
def callWsStart (c : Conn) (action method : String) (params : Option JValue)
    (session : Bool) : StartResult :=
  if !c.wsHandle then .raised (.runtimeError "connection is not established")
  else if session && !pyTruthy ((c.sessionKey).getD .jnull) then
    .raised (.runtimeError "No session key available.")
  else if method == "multipart" then .httpFallback
  else
    let echo := tokenStr c.nextId
    let c := { c with waiters := (echo, FutureState.pending) :: c.waiters,
                      nextId := c.nextId + 1 }
    .sent c echo (wsFrame action method params echo
      ((c.sessionKey).getD .jnull) session)

/-- How `await ws.send(...)` and `await future` end for one call. -/
inductive SendOutcome where
  | sendOk
  | sendRaises (e : PyExc)
deriving Repr

inductive AwaitOutcome where
  | resolves (v : JValue)
  | fails (e : MiraiErr)
  | callerCancelled
deriving Repr

inductive CallResult where
  | returns (v : JValue)
  | raises (e : PyExc)
deriving Repr

/-- The completion of `_call_ws` (adapter.py lines 242-246): whatever
way the `try` body ends — the send raising, the future resolving with a
result or an error, or the awaiting task being cancelled — the
`finally` block deletes the token from the pending table. -/
def callWsFinish (c : Conn) (token : String) (send : SendOutcome)
    (awaited : AwaitOutcome) : Conn × CallResult :=
  let c := { c with waiters := delTok c.waiters token }
  match send with
  | .sendRaises e => (c, .raises e)
  | .sendOk =>
      match awaited with
      | .resolves v => (c, .returns v)
      | .fails e => (c, .raises (.adapter e))
      | .callerCancelled => (c, .raises .cancelledError)

/-! ## The reconnect supervisor (`Adapter.ws`, adapter.py lines 102-153) -/

/-- Observable actions of one supervisor iteration. -/
inductive SupAction where
  | connectAttempt
  | botConnect
  | botDisconnect
  | sleep (n : Nat)
deriving DecidableEq, Repr

/-- How an established session ends after its frames: the transport
raising `WebSocketClosed`, the transport or processing raising another
`Exception`, or the supervisor task being cancelled at shutdown
(`CancelledError` is a `BaseException` and is not caught by either
`except` clause). -/
inductive SessionEnd where
  | wsClosed
  | transportError
  | cancelled
deriving DecidableEq, Repr

/-- One connection attempt of the supervisor: either the WebSocket
setup itself fails, or a session is established, processes `frames`,
and then ends with `ending` (unless a frame had already killed the
receive loop). -/
inductive Attempt where
  | setupFail
  | session (frames : List JValue) (ending : SessionEnd)

/-- `_loop` run over the frames of one session: iterate `loopStep`
until a frame raises; return the final state, the scheduled event
tasks, and the escaping exception if one occurred. -/
def runSession (dec : DecodeFn) (c : Conn) (frames : List JValue) :
    Conn × List Scheduled × Option PyExc :=
  match frames with
  | [] => (c, [], none)
  | f :: rest =>
      match loopStep dec c f with
      | .ok (c1, ts) =>
          match runSession dec c1 rest with
          | (c2, ts2, e) => (c2, ts ++ ts2, e)
      | .error e => (c, [], some e)

/-- The state updates of a successful connect (adapter.py lines
107-122): register the bot when the account is not yet online (the
`setdefault` keeps an existing pending table) and install the live
session handle. -/
def connSetup (c : Conn) : Conn := { c with botConnected := true, wsHandle := true }

/-- The `finally` teardown (adapter.py lines 139-141): `bot_disconnect`
and `wss.pop`.  Nothing else: the pending table and the stored session
key are untouched. -/
def teardown (c : Conn) : Conn := { c with botConnected := false, wsHandle := false }

/-- One iteration of the `while True` supervisor loop of `Adapter.ws`:
the resulting state, the emitted actions, and whether the loop
continues.  A setup failure is caught by the outer `except Exception`
and sleeps 5 before the retry; an established session whose loop dies —
by a frame exception, `WebSocketClosed`, or any other `Exception` — is
caught by the inner handlers, so the iteration ends without reaching
the outer handler and the loop retries immediately with no sleep; a
cancellation still runs the `finally` teardown but escapes both
handlers and terminates the task. -/
def wsIter (dec : DecodeFn) (c : Conn) (a : Attempt) :
    Conn × List SupAction × Bool :=
  match a with
  | .setupFail => (c, [.connectAttempt, .sleep 5], true)
  | .session frames ending =>
      let pre : List SupAction :=
        if c.botConnected then [.connectAttempt] else [.connectAttempt, .botConnect]
      match runSession dec (connSetup c) frames with
      | (c1, _ts, ferr) =>
          let fin := teardown c1
          match ferr with
          | some _ => (fin, pre ++ [.botDisconnect], true)
          | none =>
              match ending with
              | .wsClosed => (fin, pre ++ [.botDisconnect], true)
              | .transportError => (fin, pre ++ [.botDisconnect], true)
              | .cancelled => (fin, pre ++ [.botDisconnect], false)

/-! ## Auxiliary lemmas -/

theorem tokenStr_injective : Function.Injective tokenStr := by
  intro a b h
  have hlen := congrArg (fun s => s.data.length) h
  simpa [tokenStr] using hlen

theorem hasKey_true_of_lookupF {k : String} {v : JValue} :
    ∀ {fs : List (String × JValue)}, lookupF fs k = some v → hasKey fs k = true := by
  intro fs
  induction fs with
  | nil => intro h; cases h
  | cons p rest ih =>
      intro h
      cases hp : p.1 == k with
      | true => simp [hasKey, hp]
      | false =>
          simp only [lookupF, hp, Bool.false_eq_true, if_false] at h
          simp [hasKey, hp, ih h]

theorem findTok_eq_none_of_all_ne {tok : String} :
    ∀ {l : List (String × FutureState)}, (∀ p ∈ l, p.1 ≠ tok) →
      findTok l tok = none := by
  intro l
  induction l with
  | nil => intro _; rfl
  | cons p rest ih =>
      intro h
      have hp : (p.1 == tok) = false := by
        simpa using h p (List.mem_cons_self p rest)
      simp only [findTok, hp, Bool.false_eq_true, if_false]
      exact ih (fun q hq => h q (List.mem_cons_of_mem p hq))

theorem findTok_delTok_self {tok : String} :
    ∀ {l : List (String × FutureState)},
      (l.map Prod.fst).count tok ≤ 1 → findTok (delTok l tok) tok = none := by
  intro l
  induction l with
  | nil => intro _; rfl
  | cons p rest ih =>
      intro h
      cases hp : p.1 == tok with
      | true =>
          have hpe : p.1 = tok := by simpa using hp
          have hcnt : (rest.map Prod.fst).count tok = 0 := by
            simp [List.count_cons, hpe] at h
            omega
          have hnm : ∀ q ∈ rest, q.1 ≠ tok := by
            intro q hq hqe
            have : tok ∈ rest.map Prod.fst :=
              List.mem_map.mpr ⟨q, hq, hqe⟩
            exact absurd (List.count_eq_zero.mp hcnt) (fun hn => hn this)
          simp only [delTok, hp, if_true]
          exact findTok_eq_none_of_all_ne hnm
      | false =>
          have hcnt : (rest.map Prod.fst).count tok ≤ 1 := by
            simp only [List.map_cons, List.count_cons] at h
            omega
          simp only [delTok, hp, Bool.false_eq_true, if_false, findTok]
          exact ih hcnt

theorem setW_mem_of_ne {k : String} {st : FutureState}
    {q : String × FutureState} :
    ∀ {l : List (String × FutureState)}, q ∈ l → q.1 ≠ k → q ∈ setW l k st := by
  intro l
  induction l with
  | nil => intro h _; cases h
  | cons p rest ih =>
      intro hq hne
      cases hp : p.1 == k with
      | true =>
          have hpe : p.1 = k := by simpa using hp
          simp only [setW, hp, if_true]
          rcases List.mem_cons.mp hq with rfl | hmem
          · exact absurd hpe hne
          · exact List.mem_cons_of_mem _ hmem
      | false =>
          simp only [setW, hp, Bool.false_eq_true, if_false]
          rcases List.mem_cons.mp hq with rfl | hmem
          · exact List.mem_cons_self _ _
          · exact List.mem_cons_of_mem _ (ih hmem hne)

theorem mapping_code_not_success {n : Int} {k : ErrKind}
    (h : code_exceptions_mapping n = some k) : ¬(n = 200 ∨ n = 0) := by
  rintro (rfl | rfl)
  · have h0 : code_exceptions_mapping 200 = none := by decide
    rw [h0] at h; cases h
  · have h0 : code_exceptions_mapping 0 = none := by decide
    rw [h0] at h; cases h

theorem mapping_listed_or_500 {n : Int} {k : ErrKind}
    (h : code_exceptions_mapping n = some k)
    (hl : n ∉ ([1, 2, 3, 4, 5, 6, 10, 20, 30, 400] : List Int)) :
    n = 500 ∧ k = .remoteException := by
  simp only [List.mem_cons, List.not_mem_nil, or_false, not_or] at hl
  obtain ⟨h1, h2, h3, h4, h5, h6, h10, h20, h30, h400⟩ := hl
  unfold code_exceptions_mapping at h
  rw [if_neg h1, if_neg h2, if_neg h3, if_neg h4, if_neg h5, if_neg h6,
    if_neg h10, if_neg h20, if_neg h30, if_neg h400] at h
  by_cases h500 : n = 500
  · rw [if_pos h500] at h
    exact ⟨h500, (Option.some.inj h).symm⟩
  · rw [if_neg h500] at h; cases h

/-- Claim C4 (amended): for every status code in the fixed mapping
table, `validate_response` in raising mode raises exactly the error
kind mapped to that code, carrying the original code and the rendered
original content; on a structured (dict) envelope, codes 200 and 0
never raise and the payload is returned; and every integer code outside
the ten specifically-mapped kinds (and outside 200/0) raises the
generic remote-error kind with the original code and content. -/
theorem C4_mapping_table :
    (∀ (data : JValue) (n : Int) (k : ErrKind),
        intCodeOf data = some n → code_exceptions_mapping n = some k →
        validate_response data true
          = .raised (.adapter ⟨k, docOf k, n, pyStr data⟩)) ∧
    (∀ (fs : List (String × JValue)),
        (intCodeOf (.jobj fs) = some 200 ∨ intCodeOf (.jobj fs) = some 0) →
        validate_response (.jobj fs) true
          = .ret ((lookupF fs "data").getD (.jobj fs))) ∧
    (∀ (data : JValue) (n : Int),
        intCodeOf data = some n →
        n ∉ ([1, 2, 3, 4, 5, 6, 10, 20, 30, 400] : List Int) →
        ¬(n = 200 ∨ n = 0) →
        validate_response data true
          = .raised (.adapter ⟨.remoteException, docOf .remoteException, n,
              pyStr data⟩)) := by
  refine ⟨?_, ?_, ?_⟩
  · intro data n k hn hk
    have hns := mapping_code_not_success hk
    simp [validate_response, hn, if_neg hns, mkExc, hk]
  · intro fs h
    rcases h with h | h <;>
      simp [validate_response, h, successValue]
  · intro data n hn hl hns
    simp only [validate_response, hn, if_neg hns, mkExc]
    cases hm : code_exceptions_mapping n with
    | none => simp
    | some k =>
        obtain ⟨h5, hk⟩ := mapping_listed_or_500 hm hl
        subst hk
        simp

/-- Claim C4, counterexample to the claim as stated: on the bare number
200 — a success code — `validate_response` in raising mode does raise:
the success path calls `.get` on a non-dict and `AttributeError`
escapes.  The claim asserted that code 200 never raises. -/
theorem C4_counterexample :
    validate_response (.jint 200) true = .raised .attributeError := rfl

theorem C4_witness :
    validate_response (.jobj [("code", .jint 3)]) true
      = .raised (.adapter ⟨.invalidSession, docOf .invalidSession, 3,
          pyStr (.jobj [("code", .jint 3)])⟩) ∧
    validate_response (.jobj [("code", .jint 200), ("data", .jint 9)]) true
      = .ret (.jint 9) ∧
    validate_response (.jobj [("code", .jint 404)]) true
      = .raised (.adapter ⟨.remoteException, docOf .remoteException, 404,
          pyStr (.jobj [("code", .jint 404)])⟩) :=
  ⟨C4_mapping_table.1 _ 3 _ rfl rfl,
   C4_mapping_table.2.1 [("code", .jint 200), ("data", .jint 9)] (Or.inl rfl),
   C4_mapping_table.2.2 _ 404 rfl (by decide) (by decide)⟩

/-- Claim C7 (amended): `validate_response` treats a bare number as the
status code itself and otherwise extracts the `code` field of a
structured envelope; on success (code 200, code 0, or no integer code)
it returns the `data` field of a dict input, or the whole dict when no
`data` field exists, while a non-dict success value makes the success
path call `.get` on a non-dict and raise `AttributeError`; and in
non-raising mode a non-success result is returned as an error value
instead of being raised. -/
theorem C7_validator_shape :
    (∀ (n : Int) (r : Bool), ¬(n = 200 ∨ n = 0) →
        validate_response (.jint n) r
          = (if r then VRes.raised (.adapter (mkExc n (pyStr (.jint n))))
             else VRes.retExc (mkExc n (pyStr (.jint n))))) ∧
    (∀ (fs : List (String × JValue)) (r : Bool),
        (intCodeOf (.jobj fs) = none ∨ intCodeOf (.jobj fs) = some 200 ∨
          intCodeOf (.jobj fs) = some 0) →
        validate_response (.jobj fs) r
          = .ret ((lookupF fs "data").getD (.jobj fs))) ∧
    (∀ (v : JValue) (r : Bool),
        (∀ fs, v ≠ .jobj fs) →
        (intCodeOf v = none ∨ intCodeOf v = some 200 ∨ intCodeOf v = some 0) →
        validate_response v r = .raised .attributeError) ∧
    (∀ (data : JValue) (n : Int),
        intCodeOf data = some n → ¬(n = 200 ∨ n = 0) →
        validate_response data false = .retExc (mkExc n (pyStr data))) := by
  refine ⟨?_, ?_, ?_, ?_⟩
  · intro n r hns
    cases r <;> simp [validate_response, intCodeOf, if_neg hns]
  · intro fs r h
    rcases h with h | h | h <;> simp [validate_response, h, successValue]
  · intro v r hobj h
    have hsv : successValue v = .raised .attributeError := by
      cases v with
      | jobj fs => exact absurd rfl (hobj fs)
      | jnull => rfl
      | jbool b => rfl
      | jint n => rfl
      | jstr s => rfl
      | jarr xs => rfl
    rcases h with h | h | h <;> simp [validate_response, h, hsv]
  · intro data n hn hns
    simp [validate_response, hn, if_neg hns]

/-- Claim C7, counterexample to the claim as stated: the bare string
input carries no integer code, hence is a success value, and the claim
asserted that the whole input value is then returned; instead the
success path calls `.get` on the non-dict and raises
`AttributeError`. -/
theorem C7_counterexample :
    validate_response (.jstr "ok") false = .raised .attributeError := rfl

theorem C7_witness :
    validate_response (.jint 30) true
      = .raised (.adapter (mkExc 30 (pyStr (.jint 30)))) ∧
    validate_response (.jobj [("x", .jint 1)]) false
      = .ret (.jobj [("x", .jint 1)]) ∧
    validate_response .jnull true = .raised .attributeError ∧
    validate_response (.jobj [("code", .jint 5)]) false
      = .retExc (mkExc 5 (pyStr (.jobj [("code", .jint 5)]))) :=
  ⟨by simpa using C7_validator_shape.1 30 true (by decide),
   C7_validator_shape.2.1 [("x", .jint 1)] false (Or.inl rfl),
   C7_validator_shape.2.2.1 .jnull true (fun fs h => JValue.noConfusion h)
     (Or.inl rfl),
   C7_validator_shape.2.2.2 _ 5 rfl (by decide)⟩

/-- Claim C2 (amended): a received frame whose top-level object carries
a `code` field with an integer non-success value (other than 200 and 0)
is validated first, in raising mode: the raised mapped error escapes
the receive loop and aborts it (which by itself hands control back to
the supervisor and triggers a reconnect attempt). -/
theorem C2_top_code_aborts :
    (∀ (dec : DecodeFn) (c : Conn) (fs : List (String × JValue)) (n : Int),
        lookupF fs "code" = some (.jint n) → ¬(n = 200 ∨ n = 0) →
        loopStep dec c (.jobj fs)
          = .error (.adapter (mkExc n (pyStr (.jobj fs))))) ∧
    (∀ (dec : DecodeFn) (c : Conn) (fs : List (String × JValue)) (n : Int)
        (ending : SessionEnd),
        lookupF fs "code" = some (.jint n) → ¬(n = 200 ∨ n = 0) →
        (wsIter dec c (.session [.jobj fs] ending)).2.2 = true) := by
  have leg1 : ∀ (dec : DecodeFn) (c : Conn) (fs : List (String × JValue)) (n : Int),
      lookupF fs "code" = some (.jint n) → ¬(n = 200 ∨ n = 0) →
      loopStep dec c (.jobj fs)
        = .error (.adapter (mkExc n (pyStr (.jobj fs)))) := by
    intro dec c fs n hc hns
    have hk : hasKey fs "code" = true := hasKey_true_of_lookupF hc
    have hv : validate_response (.jobj fs) true
        = .raised (.adapter (mkExc n (pyStr (.jobj fs)))) := by
      simp [validate_response, intCodeOf, hc, if_neg hns]
    simp [loopStep, pyContains, hk, topValidate, hv]
  refine ⟨leg1, ?_⟩
  intro dec c fs n ending hc hns
  simp [wsIter, runSession, leg1 dec (connSetup c) fs n hc hns]

/-- Claim C2, counterexample to the claim as stated: the frame whose
top-level `code` is 3 makes the raising-mode validation raise
`InvalidSession`, which escapes `_loop` — the receive loop aborts
instead of continuing to the next iteration. -/
theorem C2_counterexample :
    loopStep decAny ⟨[], none, true, true, 0⟩
      (.jobj [("code", .jint 3), ("syncId", .jstr "x")])
      = .error (.adapter (mkExc 3
          (pyStr (.jobj [("code", .jint 3), ("syncId", .jstr "x")])))) := rfl

theorem C2_witness :
    loopStep decAny ⟨[], none, true, true, 0⟩ (.jobj [("code", .jint 5)])
      = .error (.adapter (mkExc 5 (pyStr (.jobj [("code", .jint 5)])))) ∧
    (wsIter decAny ⟨[], none, true, true, 0⟩
      (.session [.jobj [("code", .jint 5)]] .wsClosed)).2.2 = true :=
  ⟨C2_top_code_aborts.1 decAny _ _ 5 rfl (by decide),
   C2_top_code_aborts.2 decAny _ _ 5 .wsClosed rfl (by decide)⟩

/-- Claim C10 (confirmed): a received event frame whose type tag is not
in the event variant registry still produces a dispatchable generic
event object whose recorded event type equals the raw unrecognized tag,
and exactly that one event is scheduled; the unrecognized tag never
makes the receive loop fail (the result is `.ok` for every decode
oracle, since the generic fallback accepts any payload). -/
theorem C10_unknown_event_fallback :
    ∀ (dec : DecodeFn) (c : Conn) (fs pb : List (String × JValue))
      (df : JValue) (sid tag : String),
      hasKey fs "code" = false →
      lookupF fs "syncId" = some (.jstr sid) →
      findTok c.waiters sid = none →
      lookupF fs "data" = some df →
      validate_response df false = .ret (.jobj pb) →
      hasKey pb "session" = false →
      lookupF pb "type" = some (.jstr tag) →
      EVENT_CLASSES.contains tag = false →
      loopStep dec c (.jobj fs)
        = .ok (c, [.handleEvent (.generic (.jstr tag) (delKey pb "type"))]) ∧
      recordedType (.generic (.jstr tag) (delKey pb "type")) = .jstr tag := by
  intro dec c fs pb df sid tag hcode hsync hfind hdata hbody hsess htype hreg
  have hkt : hasKey pb "type" = true := hasKey_true_of_lookupF htype
  have hreg2 : tag ∉ EVENT_CLASSES := by simpa using hreg
  refine ⟨?_, rfl⟩
  simp [loopStep, pyContains, hcode, topValidate, pyGetD, hsync, hdata, hbody,
    afterBody, hsess, sidFind, hfind, hkt, pyPop, htype, eventClassMember, hreg2]

theorem C10_witness :
    loopStep decAny ⟨[("f", .pending)], none, true, true, 1⟩
      (.jobj [("syncId", .jstr "#"),
              ("data", .jobj [("type", .jstr "SomeFutureEvent"), ("qq", .jint 1)])])
      = .ok (⟨[("f", .pending)], none, true, true, 1⟩,
          [.handleEvent (.generic (.jstr "SomeFutureEvent") [("qq", .jint 1)])]) ∧
    recordedType (.generic (.jstr "SomeFutureEvent") [("qq", .jint 1)])
      = .jstr "SomeFutureEvent" :=
  C10_unknown_event_fallback decAny ⟨[("f", .pending)], none, true, true, 1⟩
    [("syncId", .jstr "#"),
     ("data", .jobj [("type", .jstr "SomeFutureEvent"), ("qq", .jint 1)])]
    [("type", .jstr "SomeFutureEvent"), ("qq", .jint 1)]
    (.jobj [("type", .jstr "SomeFutureEvent"), ("qq", .jint 1)])
    "#" "SomeFutureEvent" rfl rfl rfl rfl rfl rfl rfl (by decide)

/-- Claim C6 (amended): the routing invariant of the receive loop, for
frames that pass top-level code validation.  A payload carrying a
session-credential field only updates the stored credential: whenever
the iteration completes, no pending request was resolved and no event
was scheduled.  For a non-session payload whose correlation token
matches a pending entry, exactly that entry is resolved — with the
payload, or with the error carried by an error-coded payload — and no
event is scheduled.  A frame with no matching token whose payload
carries a recognized type tag schedules exactly one event when the
typed decode succeeds; a typed-decode failure escapes and aborts the
receive loop with no event scheduled. -/
theorem C6_routing :
    (∀ (dec : DecodeFn) (c : Conn) (fs pb : List (String × JValue)) (df v : JValue),
        lookupF fs "data" = some df →
        validate_response df false = .ret (.jobj pb) →
        lookupF pb "session" = some v →
        ∀ c2 ts, loopStep dec c (.jobj fs) = .ok (c2, ts) →
          ts = [] ∧ c2.waiters = c.waiters ∧ c2.sessionKey = some v) ∧
    (∀ (dec : DecodeFn) (c : Conn) (fs pb : List (String × JValue)) (df : JValue)
        (sid tok : String),
        hasKey fs "code" = false →
        lookupF fs "syncId" = some (.jstr sid) →
        lookupF fs "data" = some df →
        validate_response df false = .ret (.jobj pb) →
        hasKey pb "session" = false →
        findTok c.waiters sid = some (tok, .pending) →
        loopStep dec c (.jobj fs)
          = .ok ({ c with waiters := setW c.waiters tok (.doneResult (.jobj pb)) }, []) ∧
        ∀ q ∈ c.waiters, q.1 ≠ tok →
          q ∈ setW c.waiters tok (.doneResult (.jobj pb))) ∧
    (∀ (dec : DecodeFn) (c : Conn) (fs : List (String × JValue)) (df : JValue)
        (exc : MiraiErr) (sid tok : String),
        hasKey fs "code" = false →
        lookupF fs "syncId" = some (.jstr sid) →
        lookupF fs "data" = some df →
        validate_response df false = .retExc exc →
        findTok c.waiters sid = some (tok, .pending) →
        loopStep dec c (.jobj fs)
          = .ok ({ c with waiters := setW c.waiters tok (.doneError exc) }, [])) ∧
    (∀ (dec : DecodeFn) (c : Conn) (fs pb : List (String × JValue)) (df : JValue)
        (sid tag : String),
        hasKey fs "code" = false →
        lookupF fs "syncId" = some (.jstr sid) →
        findTok c.waiters sid = none →
        lookupF fs "data" = some df →
        validate_response df false = .ret (.jobj pb) →
        hasKey pb "session" = false →
        lookupF pb "type" = some (.jstr tag) →
        EVENT_CLASSES.contains tag = true →
        (∀ ev, dec tag (delKey pb "type") = .ok ev →
            loopStep dec c (.jobj fs) = .ok (c, [.handleEvent ev])) ∧
        (∀ e, dec tag (delKey pb "type") = .error e →
            loopStep dec c (.jobj fs) = .error e)) := by
  refine ⟨?_, ?_, ?_, ?_⟩
  · intro dec c fs pb df v hdf hbody hsess c2 ts heq
    have hks : hasKey pb "session" = true := hasKey_true_of_lookupF hsess
    cases htv : topValidate (hasKey fs "code") (.jobj fs) with
    | some e =>
        rw [show loopStep dec c (.jobj fs) = .error e by
          simp [loopStep, pyContains, htv]] at heq
        cases heq
    | none =>
        rw [show loopStep dec c (.jobj fs)
            = .ok ({ c with sessionKey := some v }, []) by
          simp [loopStep, pyContains, htv, pyGetD, hdf, hbody, afterBody,
            hks, pyIndex, hsess]] at heq
        cases heq
        exact ⟨rfl, rfl, rfl⟩
  · intro dec c fs pb df sid tok hcode hsync hdf hbody hsess hfind
    refine ⟨?_, fun q hq hne => setW_mem_of_ne hq hne⟩
    simp [loopStep, pyContains, hcode, topValidate, pyGetD, hsync, hdf, hbody,
      afterBody, hsess, sidFind, hfind, resolveEntry]
  · intro dec c fs df exc sid tok hcode hsync hdf hbody hfind
    simp [loopStep, pyContains, hcode, topValidate, pyGetD, hsync, hdf, hbody,
      sidFind, hfind, resolveEntry]
  · intro dec c fs pb df sid tag hcode hsync hfind hdf hbody hsess htype hreg
    have hkt : hasKey pb "type" = true := hasKey_true_of_lookupF htype
    have hreg2 : tag ∈ EVENT_CLASSES := by
      simpa using hreg
    constructor
    · intro ev hdec
      simp [loopStep, pyContains, hcode, topValidate, pyGetD, hsync, hdf, hbody,
        afterBody, hsess, sidFind, hfind, hkt, pyPop, htype, eventClassMember,
        hreg2, hdec]
    · intro e hdec
      simp [loopStep, pyContains, hcode, topValidate, pyGetD, hsync, hdf, hbody,
        afterBody, hsess, sidFind, hfind, hkt, pyPop, htype, eventClassMember,
        hreg2, hdec]

/-- Claim C6, counterexample to the claim as stated: the frame below
has no matching pending token and its payload carries the recognized
type tag `FriendMessage`, yet no event is scheduled — the typed decode
(`generate_message` reading `values["messageChain"]`) raises `KeyError`
on the empty body and the receive loop aborts. -/
theorem C6_counterexample :
    loopStep decodeFriendMessage ⟨[], none, true, true, 0⟩
      (.jobj [("syncId", .jstr "#"), ("data", .jobj [("type", .jstr "FriendMessage")])])
      = .error (.keyError "messageChain") := rfl

theorem C6_witness :
    ((([] : List Scheduled) = []) ∧
      (⟨[("f", .pending)], some (.jstr "abc"), true, true, 1⟩ : Conn).waiters
        = (⟨[("f", .pending)], none, true, true, 1⟩ : Conn).waiters ∧
      (⟨[("f", .pending)], some (.jstr "abc"), true, true, 1⟩ : Conn).sessionKey
        = some (.jstr "abc")) ∧
    (loopStep decAny ⟨[("f", .pending)], none, true, true, 1⟩
        (.jobj [("syncId", .jstr "f"), ("data", .jobj [("x", .jint 1)])])
      = .ok (⟨[("f", .doneResult (.jobj [("x", .jint 1)]))], none, true, true, 1⟩, [])) ∧
    (loopStep decAny ⟨[("f", .pending)], none, true, true, 1⟩
        (.jobj [("syncId", .jstr "f"), ("data", .jobj [("code", .jint 3)])])
      = .ok (⟨[("f", .doneError (mkExc 3 (pyStr (.jobj [("code", .jint 3)]))))],
          none, true, true, 1⟩, [])) ∧
    (loopStep decodeFriendMessage ⟨[], none, true, true, 0⟩
        (.jobj [("syncId", .jstr "#"),
                ("data", .jobj [("type", .jstr "FriendMessage"),
                                ("messageChain", .jarr [])])])
      = .ok (⟨[], none, true, true, 0⟩,
          [.handleEvent (.typed "FriendMessage" [("messageChain", .jarr [])])])) := by
  refine ⟨?_, ?_, ?_, ?_⟩
  · exact C6_routing.1 decAny ⟨[("f", .pending)], none, true, true, 1⟩
      [("syncId", .jstr ""), ("data", .jobj [("code", .jint 0), ("session", .jstr "abc")])]
      [("code", .jint 0), ("session", .jstr "abc")]
      (.jobj [("code", .jint 0), ("session", .jstr "abc")]) (.jstr "abc")
      rfl rfl rfl _ _ rfl
  · have h := C6_routing.2.1 decAny ⟨[("f", .pending)], none, true, true, 1⟩
      [("syncId", .jstr "f"), ("data", .jobj [("x", .jint 1)])]
      [("x", .jint 1)] (.jobj [("x", .jint 1)]) "f" "f"
      rfl rfl rfl rfl rfl rfl
    exact h.1
  · exact C6_routing.2.2.1 decAny ⟨[("f", .pending)], none, true, true, 1⟩
      [("syncId", .jstr "f"), ("data", .jobj [("code", .jint 3)])]
      (.jobj [("code", .jint 3)]) (mkExc 3 (pyStr (.jobj [("code", .jint 3)])))
      "f" "f" rfl rfl rfl rfl rfl
  · have h := C6_routing.2.2.2 decodeFriendMessage ⟨[], none, true, true, 0⟩
      [("syncId", .jstr "#"),
       ("data", .jobj [("type", .jstr "FriendMessage"), ("messageChain", .jarr [])])]
      [("type", .jstr "FriendMessage"), ("messageChain", .jarr [])]
      (.jobj [("type", .jstr "FriendMessage"), ("messageChain", .jarr [])])
      "#" "FriendMessage" rfl rfl rfl rfl rfl rfl rfl (by decide)
    exact h.1 (.typed "FriendMessage" [("messageChain", .jarr [])]) rfl

/-- Claim C5 (amended): the correlation token of a WS call is fresh —
under the table invariant that every pending token was minted from an
earlier future identity, the token of the new call differs from every
currently pending token; once the call completes (result, error, send
failure or cancellation) the `finally` deletion leaves the table
without the token; a second response for a token already removed from
the table is dropped as a no-op (for a response-shaped payload with no
session field and no type tag); but a second response arriving while
the resolved entry is still in the table makes `set_result` raise
`InvalidStateError`, which aborts the receive loop. -/
theorem C5_pending_table :
    (∀ (c : Conn) (action method : String) (params : Option JValue) (sess : Bool)
        (c2 : Conn) (tok : String) (frame : List (String × JValue)),
        (∀ p ∈ c.waiters, ∃ i, i < c.nextId ∧ p.1 = tokenStr i) →
        callWsStart c action method params sess = .sent c2 tok frame →
        tok = tokenStr c.nextId ∧
        findTok c.waiters tok = none ∧
        c2.waiters = (tok, FutureState.pending) :: c.waiters) ∧
    (∀ (c : Conn) (tok : String) (send : SendOutcome) (aw : AwaitOutcome),
        (c.waiters.map Prod.fst).count tok ≤ 1 →
        findTok (callWsFinish c tok send aw).1.waiters tok = none) ∧
    (∀ (dec : DecodeFn) (c : Conn) (fs pb : List (String × JValue)) (df : JValue)
        (sid : String),
        hasKey fs "code" = false →
        lookupF fs "syncId" = some (.jstr sid) →
        findTok c.waiters sid = none →
        lookupF fs "data" = some df →
        validate_response df false = .ret (.jobj pb) →
        hasKey pb "session" = false →
        hasKey pb "type" = false →
        loopStep dec c (.jobj fs) = .ok (c, [])) ∧
    (∀ (dec : DecodeFn) (c : Conn) (fs pb : List (String × JValue)) (df : JValue)
        (sid tok : String) (v : JValue),
        hasKey fs "code" = false →
        lookupF fs "syncId" = some (.jstr sid) →
        lookupF fs "data" = some df →
        validate_response df false = .ret (.jobj pb) →
        hasKey pb "session" = false →
        findTok c.waiters sid = some (tok, .doneResult v) →
        loopStep dec c (.jobj fs) = .error .invalidState) := by
  refine ⟨?_, ?_, ?_, ?_⟩
  · intro c action method params sess c2 tok frame hinv heq
    unfold callWsStart at heq
    split_ifs at heq
    injection heq with h1 h2 h3
    subst h1; subst h2
    refine ⟨rfl, ?_, rfl⟩
    refine findTok_eq_none_of_all_ne ?_
    intro p hp hptok
    obtain ⟨i, hi, hpi⟩ := hinv p hp
    have : tokenStr i = tokenStr c.nextId := by rw [← hpi, hptok]
    exact absurd (tokenStr_injective this) (Nat.ne_of_lt hi)
  · intro c tok send aw hcount
    have h : findTok (delTok c.waiters tok) tok = none := findTok_delTok_self hcount
    cases send with
    | sendRaises e => simpa [callWsFinish] using h
    | sendOk => cases aw <;> simpa [callWsFinish] using h
  · intro dec c fs pb df sid hcode hsync hfind hdf hbody hsess htype
    simp [loopStep, pyContains, hcode, topValidate, pyGetD, hsync, hdf, hbody,
      afterBody, hsess, sidFind, hfind, htype]
  · intro dec c fs pb df sid tok v hcode hsync hdf hbody hsess hfind
    simp [loopStep, pyContains, hcode, topValidate, pyGetD, hsync, hdf, hbody,
      afterBody, hsess, sidFind, hfind, resolveEntry]

/-- Claim C5, counterexample to the claim as stated: the pending entry
for token `f` has already been resolved (`set_result` ran, the awaiting
caller has not yet executed its `finally` deletion — the state every
resolution passes through), and a second response for that token
arrives; `set_result` on the already-resolved future raises
`InvalidStateError`, which aborts the receive loop — not a no-op. -/
theorem C5_counterexample :
    loopStep decAny
      ⟨[("f", .doneResult (.jobj [("x", .jint 1)]))], none, true, true, 1⟩
      (.jobj [("syncId", .jstr "f"), ("data", .jobj [("msgId", .jint 2)])])
      = .error .invalidState := rfl

theorem C5_witness :
    (tokenStr 0 = tokenStr 0 ∧
      findTok ([] : List (String × FutureState)) (tokenStr 0) = none ∧
      (⟨[(tokenStr 0, FutureState.pending)], none, true, true, 1⟩ : Conn).waiters
        = (tokenStr 0, FutureState.pending) :: []) ∧
    findTok (callWsFinish ⟨[("a", .pending)], none, true, true, 1⟩ "a"
      .sendOk (.resolves (.jobj []))).1.waiters "a" = none ∧
    loopStep decAny ⟨[], none, true, true, 0⟩
      (.jobj [("syncId", .jstr "zz"), ("data", .jobj [("ok", .jbool true)])])
      = .ok (⟨[], none, true, true, 0⟩, []) ∧
    loopStep decAny ⟨[("g", .doneResult .jnull)], none, true, true, 1⟩
      (.jobj [("syncId", .jstr "g"), ("data", .jobj [("y", .jint 2)])])
      = .error .invalidState :=
  ⟨C5_pending_table.1 ⟨[], none, true, true, 0⟩ "about" "get" none false
      ⟨[(tokenStr 0, FutureState.pending)], none, true, true, 1⟩ (tokenStr 0) _
      (fun p hp => absurd hp (List.not_mem_nil p)) rfl,
   C5_pending_table.2.1 ⟨[("a", .pending)], none, true, true, 1⟩ "a"
      .sendOk (.resolves (.jobj [])) (by simp),
   C5_pending_table.2.2.1 decAny ⟨[], none, true, true, 0⟩
      [("syncId", .jstr "zz"), ("data", .jobj [("ok", .jbool true)])]
      [("ok", .jbool true)] (.jobj [("ok", .jbool true)]) "zz"
      rfl rfl rfl rfl rfl rfl rfl,
   C5_pending_table.2.2.2 decAny ⟨[("g", .doneResult .jnull)], none, true, true, 1⟩
      [("syncId", .jstr "g"), ("data", .jobj [("y", .jint 2)])]
      [("y", .jint 2)] (.jobj [("y", .jint 2)]) "g" "g" .jnull
      rfl rfl rfl rfl rfl rfl⟩

/-- Claim C1 (amended): the teardown performed by the reconnect
supervisor on connection loss unregisters the bot and removes the live
session handle, but does not touch the pending-request table: every
entry the receive loop left behind — in particular every still-pending
request — survives the teardown unresolved, so the awaiting call is not
failed by the teardown (it remains pending until a later frame,
cancellation of its own task, or garbage collection releases it). -/
theorem C1_teardown_keeps_pending :
    ∀ (dec : DecodeFn) (c : Conn) (frames : List JValue) (ending : SessionEnd),
      (wsIter dec c (.session frames ending)).1.botConnected = false ∧
      (wsIter dec c (.session frames ending)).1.wsHandle = false ∧
      (wsIter dec c (.session frames ending)).1.waiters
        = (runSession dec (connSetup c) frames).1.waiters ∧
      ∀ tok, (tok, FutureState.pending) ∈ (runSession dec (connSetup c) frames).1.waiters →
        (tok, FutureState.pending) ∈ (wsIter dec c (.session frames ending)).1.waiters := by
  intro dec c frames ending
  rcases hr : runSession dec (connSetup c) frames with ⟨c1, ts, ferr⟩
  cases ferr with
  | some e => simp [wsIter, hr, teardown]
  | none => cases ending <;> simp [wsIter, hr, teardown]

/-- Claim C1, counterexample to the claim as stated: a session with a
pending request is torn down (abnormal close); afterwards the request
is still pending and still in the table — the teardown did not fail it,
so the awaiting call does not return with an error. -/
theorem C1_counterexample :
    (wsIter decAny ⟨[("f", .pending)], none, true, true, 1⟩
        (.session [] .transportError)).1
      = ⟨[("f", .pending)], none, false, false, 1⟩ ∧
    ("f", FutureState.pending)
      ∈ (wsIter decAny ⟨[("f", .pending)], none, true, true, 1⟩
          (.session [] .transportError)).1.waiters :=
  ⟨rfl, List.Mem.head _⟩

theorem C1_witness :
    (wsIter decAny ⟨[("t", .pending)], none, true, true, 1⟩
        (.session [] .wsClosed)).1.botConnected = false ∧
    ("t", FutureState.pending)
      ∈ (wsIter decAny ⟨[("t", .pending)], none, true, true, 1⟩
          (.session [] .wsClosed)).1.waiters :=
  ⟨(C1_teardown_keeps_pending decAny ⟨[("t", .pending)], none, true, true, 1⟩
      [] .wsClosed).1,
   (C1_teardown_keeps_pending decAny ⟨[("t", .pending)], none, true, true, 1⟩
      [] .wsClosed).2.2.2 "t" (List.Mem.head _)⟩

/-- Claim C8 (amended): on every disconnect of an account's transport
session (clean or error), before the next reconnection attempt the
account is unregistered as online and the live session handle is
removed — but the stored session credential is NOT cleared: whatever
credential the session last stored remains present until a later
session-credential frame overwrites it. -/
theorem C8_teardown_keeps_credential :
    ∀ (dec : DecodeFn) (c : Conn) (frames : List JValue) (ending : SessionEnd),
      (wsIter dec c (.session frames ending)).1.botConnected = false ∧
      (wsIter dec c (.session frames ending)).1.wsHandle = false ∧
      (wsIter dec c (.session frames ending)).1.sessionKey
        = (runSession dec (connSetup c) frames).1.sessionKey := by
  intro dec c frames ending
  rcases hr : runSession dec (connSetup c) frames with ⟨c1, ts, ferr⟩
  cases ferr with
  | some e => simp [wsIter, hr, teardown]
  | none => cases ending <;> simp [wsIter, hr, teardown]

/-- Claim C8, counterexample to the claim as stated: an account holding
the session credential `sk` is disconnected; after the teardown the
credential is still stored — it is not cleared, contrary to the
claim that it is absent until a new session-credential frame arrives. -/
theorem C8_counterexample :
    (wsIter decAny ⟨[], some (.jstr "sk"), true, true, 0⟩
        (.session [] .wsClosed)).1.sessionKey = some (.jstr "sk") ∧
    some (JValue.jstr "sk") ≠ (none : Option JValue) :=
  ⟨rfl, by simp⟩

/-- Claim C3 (amended): a failure of the WebSocket setup is caught by
the outer handler and the supervisor waits the fixed backoff of 5 time
units before the next attempt; but a failure of an established session
— abnormal close, or an exception escaping the receive loop — is caught
by the inner handlers, so the supervisor retries immediately with no
backoff at all.  The supervisor never terminates on its own: every
attempt outcome other than cancellation continues the loop, and only
cancellation (process shutdown) ends it. -/
theorem C3_backoff_schedule :
    (∀ (dec : DecodeFn) (c : Conn),
        wsIter dec c .setupFail = (c, [.connectAttempt, .sleep 5], true)) ∧
    (∀ (dec : DecodeFn) (c : Conn) (frames : List JValue) (ending : SessionEnd),
        ending ≠ .cancelled →
        (wsIter dec c (.session frames ending)).2.2 = true ∧
        ∀ n, SupAction.sleep n ∉ (wsIter dec c (.session frames ending)).2.1) ∧
    (∀ (dec : DecodeFn) (c : Conn) (frames : List JValue),
        (runSession dec (connSetup c) frames).2.2 = none →
        (wsIter dec c (.session frames .cancelled)).2.2 = false) := by
  refine ⟨fun dec c => rfl, ?_, ?_⟩
  · intro dec c frames ending hne
    rcases hr : runSession dec (connSetup c) frames with ⟨c1, ts, ferr⟩
    cases ferr with
    | some e =>
        constructor
        · simp [wsIter, hr]
        · intro n
          by_cases hb : c.botConnected <;> simp [wsIter, hr, hb]
    | none =>
        cases ending with
        | cancelled => exact absurd rfl hne
        | wsClosed =>
            refine ⟨by simp [wsIter, hr], fun n => ?_⟩
            by_cases hb : c.botConnected <;> simp [wsIter, hr, hb]
        | transportError =>
            refine ⟨by simp [wsIter, hr], fun n => ?_⟩
            by_cases hb : c.botConnected <;> simp [wsIter, hr, hb]
  · intro dec c frames hnone
    rcases hr : runSession dec (connSetup c) frames with ⟨c1, ts, ferr⟩
    rw [hr] at hnone
    simp at hnone
    subst hnone
    simp [wsIter, hr]

/-- Claim C3, counterexample to the claim as stated: an abnormal close
of an established session (`WebSocketClosed` escaping the receive loop)
is followed by an immediate retry — the iteration emits no sleep at
all, in particular not the claimed fixed backoff of 5 time units. -/
theorem C3_counterexample :
    (wsIter decAny ⟨[], none, true, true, 0⟩ (.session [] .wsClosed)).2.1
      = [SupAction.connectAttempt, SupAction.botDisconnect] ∧
    SupAction.sleep 5 ∉ [SupAction.connectAttempt, SupAction.botDisconnect] ∧
    (wsIter decAny ⟨[], none, true, true, 0⟩ (.session [] .wsClosed)).2.2 = true :=
  ⟨rfl, by decide, rfl⟩

theorem C3_witness :
    wsIter decAny ⟨[], none, false, false, 0⟩ .setupFail
      = (⟨[], none, false, false, 0⟩, [.connectAttempt, .sleep 5], true) ∧
    (wsIter decAny ⟨[], none, false, false, 0⟩ (.session [] .transportError)).2.2 = true ∧
    SupAction.sleep 5 ∉ (wsIter decAny ⟨[], none, false, false, 0⟩
      (.session [] .transportError)).2.1 ∧
    (wsIter decAny ⟨[], none, false, false, 0⟩ (.session [] .cancelled)).2.2 = false :=
  ⟨C3_backoff_schedule.1 decAny _,
   (C3_backoff_schedule.2.1 decAny ⟨[], none, false, false, 0⟩ [] .transportError
      (by decide)).1,
   (C3_backoff_schedule.2.1 decAny ⟨[], none, false, false, 0⟩ [] .transportError
      (by decide)).2 5,
   C3_backoff_schedule.2.2 decAny ⟨[], none, false, false, 0⟩ [] rfl⟩

/-- Claim C9 (amended): the outbound frame's sub-command field is the
translated method name, where the translation dict of `_call_ws` maps
`fetch` to `get` and `post` to `update`, and any other method name —
including `get` itself — is passed through unchanged (the dict lookup
misses and Python `or` falls back to the raw method). -/
theorem C9_subcommand_translation :
    (∀ (c : Conn) (action method : String) (params : Option JValue) (sess : Bool)
        (c2 : Conn) (tok : String) (frame : List (String × JValue)),
        callWsStart c action method params sess = .sent c2 tok frame →
        lookupF frame "subCommand" = some (.jstr (subCommandFor method))) ∧
    subCommandFor "post" = "update" ∧
    subCommandFor "fetch" = "get" ∧
    (∀ m : String, m ≠ "fetch" → m ≠ "post" → subCommandFor m = m) := by
  refine ⟨?_, rfl, rfl, ?_⟩
  · intro c action method params sess c2 tok frame heq
    unfold callWsStart at heq
    split_ifs at heq
    injection heq with h1 h2 h3
    subst h3
    simp [wsFrame, lookupF]
  · intro m h1 h2
    have b1 : (m == "fetch") = false := beq_eq_false_iff_ne.mpr h1
    have b2 : (m == "post") = false := beq_eq_false_iff_ne.mpr h2
    simp [subCommandFor, b1, b2]

/-- Claim C9, counterexample to the claim as stated: a WS call with
method `get` produces the sub-command `get`, not the claimed
translation `fetch` — the translation dict of the source maps `fetch`
to `get`, so `get` misses the dict and passes through. -/
theorem C9_counterexample :
    callWsStart ⟨[], none, true, true, 0⟩ "about" "get" none false
      = .sent ⟨[(tokenStr 0, .pending)], none, true, true, 1⟩ (tokenStr 0)
          [("subCommand", .jstr "get"), ("syncId", .jstr (tokenStr 0)),
           ("command", .jstr "about"), ("content", .jobj [])] ∧
    ("get" : String) ≠ "fetch" :=
  ⟨rfl, by decide⟩

theorem C9_witness :
    lookupF [("subCommand", .jstr "update"), ("syncId", .jstr (tokenStr 0)),
             ("command", .jstr "send"), ("content", .jobj []),
             ("sessionKey", .jstr "sk")] "subCommand"
      = some (.jstr (subCommandFor "post")) ∧
    subCommandFor "multipart2" = "multipart2" :=
  ⟨C9_subcommand_translation.1 ⟨[], some (.jstr "sk"), true, true, 0⟩ "send" "post"
      none true ⟨[(tokenStr 0, .pending)], some (.jstr "sk"), true, true, 1⟩
      (tokenStr 0) _ rfl,
   C9_subcommand_translation.2.2.2 "multipart2" (by decide) (by decide)⟩
